import Mathlib

/-!
Verification of "The AI Exchange" backend (FastAPI + SQLModel).

The data model is a shallow embedding of `backend/app/models.py`; the endpoint
functions embed the handlers in `backend/app/api/{resources,admin,analytics,
subscriptions,auth}.py`.  The database session is modelled as an explicit
record of tables; an endpoint returns its HTTP result together with the
database state after the request (an uncaught `HTTPException` before `commit`
leaves the state unchanged, so error branches return the input state).
UUID primary keys are modelled as naturals, timestamps as naturals, and the
float column `time_saved_value` as an integer number of hours.
-/

namespace AIExchange

/-! ### Data model (`backend/app/models.py`) -/

inductive UserRole
  | STAFF
  | ADMIN
deriving DecidableEq, Repr

inductive ResourceType
  | REQUEST
  | USE_CASE
  | PROMPT
  | TOOL
  | POLICY
  | PAPER
  | PROJECT
  | CONFERENCE
  | DATASET
deriving DecidableEq, Repr

inductive ResourceStatus
  | OPEN
  | SOLVED
deriving DecidableEq, Repr

abbrev UserId := Nat

abbrev ResourceId := Nat

structure User where
  id : UserId
  email : String
  hashed_password : String
  full_name : String
  role : UserRole
  is_active : Bool
  is_approved : Bool
deriving DecidableEq, Repr

structure Resource where
  id : ResourceId
  user_id : UserId
  parent_id : Option ResourceId
  type : ResourceType
  status : ResourceStatus
  title : String
  content_text : String
  content_meta : List (String × String)
  is_anonymous : Bool
  is_verified : Bool
  is_hidden : Bool
  system_tags : List String
  user_tags : List String
  shadow_tags : List String
  discipline : Option String
  time_saved_value : Option Int
  created_at : Nat
  updated_at : Nat
deriving DecidableEq, Repr

structure ResourceAnalytics where
  resource_id : ResourceId
  view_count : Int
  save_count : Int
  tried_count : Int
  last_viewed : Option Nat
deriving DecidableEq, Repr

structure UserSavedResource where
  user_id : UserId
  resource_id : ResourceId
  saved_at : Nat
deriving DecidableEq, Repr

structure Subscription where
  user_id : UserId
  tag : String
deriving DecidableEq, Repr

structure EmailVerification where
  user_id : UserId
  code : String
  expires_at : Nat
deriving DecidableEq, Repr

structure ConfigurableValue where
  id : Nat
  key : String
  type : String
  label : String
  description : Option String
  category : Option String
  is_active : Bool
deriving DecidableEq, Repr

/-- The database state: one list per table used by the verified endpoints. -/
structure DB where
  users : List User
  resources : List Resource
  analytics : List ResourceAnalytics
  saved : List UserSavedResource
  subscriptions : List Subscription
  verifications : List EmailVerification
  config_values : List ConfigurableValue
deriving DecidableEq, Repr

/-- An `HTTPException`: status code and detail message. -/
structure HErr where
  code : Nat
  detail : String
deriving DecidableEq, Repr

/-! ### Row lookup and update helpers (modelling `session.get` / `session.add` + `commit`) -/

def find_user (db : DB) (uid : UserId) : Option User :=
  db.users.find? (fun u => decide (u.id = uid))

def find_resource (db : DB) (rid : ResourceId) : Option Resource :=
  db.resources.find? (fun r => decide (r.id = rid))

def analytics_lookup (db : DB) (rid : ResourceId) : Option ResourceAnalytics :=
  db.analytics.find? (fun a => decide (a.resource_id = rid))

def set_user (db : DB) (uid : UserId) (f : User → User) : DB :=
  { db with users := db.users.map (fun u => if decide (u.id = uid) then f u else u) }

def set_resource (db : DB) (rid : ResourceId) (f : Resource → Resource) : DB :=
  { db with resources := db.resources.map (fun r => if decide (r.id = rid) then f r else r) }

def set_analytics (db : DB) (rid : ResourceId) (a : ResourceAnalytics) : DB :=
  { db with analytics := db.analytics.map (fun x => if decide (x.resource_id = rid) then a else x) }

/-! ### Subscriptions (`backend/app/api/subscriptions.py`) -/

def sub_pred (uid : UserId) (tag : String) (s : Subscription) : Bool :=
  decide (s.user_id = uid) && decide (s.tag = tag)

def is_subscribed (db : DB) (uid : UserId) (tag : String) : Bool :=
  (db.subscriptions.find? (sub_pred uid tag)).isSome

/-- `POST /subscriptions/subscribe`. -/
def subscribe (db : DB) (current_user : User) (tag : String) :
    Except HErr Subscription × DB :=
  match db.subscriptions.find? (sub_pred current_user.id tag) with
  | some _ => (.error ⟨400, "Already subscribed to this tag"⟩, db)
  | none =>
    let sub : Subscription := { user_id := current_user.id, tag := tag }
    (.ok sub, { db with subscriptions := db.subscriptions ++ [sub] })

/-- `DELETE /subscriptions/unsubscribe/{tag}`. -/
def unsubscribe (db : DB) (current_user : User) (tag : String) :
    Except HErr Unit × DB :=
  match db.subscriptions.find? (sub_pred current_user.id tag) with
  | none => (.error ⟨404, "Not subscribed to this tag"⟩, db)
  | some _ =>
    (.ok (), { db with subscriptions := db.subscriptions.eraseP (sub_pred current_user.id tag) })

/-- Number of subscription rows pairing `uid` with `tag`. -/
def sub_count (db : DB) (uid : UserId) (tag : String) : Nat :=
  db.subscriptions.countP (sub_pred uid tag)

/-! ### Registration (`backend/app/api/auth.py`, `register`) -/

structure UserCreate where
  email : String
  full_name : String
  password : String
deriving DecidableEq, Repr

/-- ASCII lowercasing of one character, as Python's `str.lower` acts on the
ASCII range emails use. -/
def lowerChar (c : Char) : Char :=
  if 'A' ≤ c ∧ c ≤ 'Z' then Char.ofNat (c.toNat + 32) else c

/-- Python's `email.lower()`. -/
def lower (s : String) : String :=
  ⟨s.data.map lowerChar⟩

def chunk_after_at : List Char → List Char
  | [] => []
  | c :: rest => if c = '@' then rest.takeWhile (fun d => d ≠ '@') else chunk_after_at rest

/-- The part after the first `@`, as `email.split("@")[1]` computes it for an
address containing `@`. -/
def email_domain (email : String) : String :=
  ⟨chunk_after_at email.data⟩

/-- `POST /auth/register`.  The settings `allowed_domains` and the email
whitelist, the password hash function, the fresh UUID, the random 6-digit
verification code and the clock are passed as parameters. -/
def register (db : DB) (data : UserCreate) (allowed_domains : List String)
    (email_whitelist : List String) (hash_password : String → String)
    (new_id : UserId) (code : String) (now : Nat) :
    Except HErr User × DB :=
  match db.users.find? (fun u => decide (u.email = lower data.email)) with
  | some _ => (.error ⟨400, "Email already registered"⟩, db)
  | none =>
    let is_whitelisted := email_whitelist.contains (lower data.email)
    let is_domain_allowed := allowed_domains.contains (email_domain (lower data.email))
    let is_approved := is_whitelisted || is_domain_allowed
    if !is_approved then
      (.error ⟨403, "Access denied. Contact admin for access."⟩, db)
    else
      let is_first_user := db.users.isEmpty
      let new_user : User :=
        { id := new_id
          email := lower data.email
          hashed_password := hash_password data.password
          full_name := data.full_name
          role := if is_first_user then UserRole.ADMIN else UserRole.STAFF
          is_active := true
          is_approved := is_approved }
      let verification : EmailVerification :=
        { user_id := new_id, code := code, expires_at := now + 60 * 60 }
      (.ok new_user,
        { db with
            users := db.users ++ [new_user]
            verifications := db.verifications ++ [verification] })

/-! ### Resource listing (`backend/app/api/resources.py`, `list_resources` / `get_resource`) -/

/-- The `ResourceWithAuthor` response schema: the resource's response fields
together with analytics and the (possibly anonymised) author information. -/
structure ResourceWithAuthor where
  res : Resource
  analytics : Option ResourceAnalytics
  author_name : String
  author_email : Option String
  author_id : UserId
deriving DecidableEq, Repr

/-- One `if filter: query = query.where(...)` step of the query builder for a
parameter whose Python truthiness coincides with presence: the enum filters
(every `ResourceType`/`ResourceStatus` value is a non-empty string, hence
truthy) and `min_time_saved`, which the handler tests with `is not None`. -/
def opt_filter {β : Type} (o : Option β) (p : β → Resource → Bool)
    (l : List Resource) : List Resource :=
  match o with
  | some b => l.filter (p b)
  | none => l

/-- One `if filter: query = query.where(...)` step for a string parameter:
Python truthiness skips the where-clause not only when the parameter is
absent but also when it is the empty string. -/
def if_truthy_filter (o : Option String) (p : String → Resource → Bool)
    (l : List Resource) : List Resource :=
  match o with
  | none => l
  | some s => if s = "" then l else l.filter (p s)

def tag_filter (tag : String) (r : Resource) : Bool :=
  tag ∈ r.system_tags || tag ∈ r.user_tags || tag ∈ r.shadow_tags

def time_saved_filter (m : Int) (r : Resource) : Bool :=
  match r.time_saved_value with
  | some v => decide (m ≤ v)
  | none => false

/-- The filter part of `list_resources`: hidden resources are excluded and
each truthy filter adds a `where` clause (`if tag:` and `if discipline:` skip
the clause when the supplied string is empty). -/
def matching_resources (db : DB) (type_filter : Option ResourceType)
    (status_filter : Option ResourceStatus) (tag : Option String)
    (discipline_filter : Option String) (min_time_saved : Option Int) : List Resource :=
  let q := db.resources.filter (fun r => !r.is_hidden)
  let q := opt_filter type_filter (fun t r => decide (r.type = t)) q
  let q := opt_filter status_filter (fun s r => decide (r.status = s)) q
  let q := if_truthy_filter tag tag_filter q
  let q := if_truthy_filter discipline_filter (fun d r => decide (r.discipline = some d)) q
  opt_filter min_time_saved time_saved_filter q

def insert_by_newest (r : Resource) : List Resource → List Resource
  | [] => [r]
  | s :: rest =>
    if s.created_at ≤ r.created_at then r :: s :: rest
    else s :: insert_by_newest r rest

/-- `order_by(Resource.created_at.desc())`: sorts by `created_at`
descending. -/
def sort_by_newest : List Resource → List Resource
  | [] => []
  | r :: rest => insert_by_newest r (sort_by_newest rest)

def author_lookup (db : DB) (uid : UserId) : Option User :=
  db.users.find? (fun u => decide (u.id = uid))

/-- Builds the `ResourceWithAuthor` entry for one listed resource; resources
whose author row is missing are skipped (`if user_data:` in the handler). -/
def with_author (db : DB) (r : Resource) : Option ResourceWithAuthor :=
  match author_lookup db r.user_id with
  | none => none
  | some u =>
    some
      { res := r
        analytics := analytics_lookup db r.id
        author_name := if r.is_anonymous then "Faculty Member" else u.full_name
        author_email := if r.is_anonymous then none else some u.email
        author_id := u.id }

/-- `GET /resources`. -/
def list_resources (db : DB) (type_filter : Option ResourceType)
    (status_filter : Option ResourceStatus) (tag : Option String)
    (discipline_filter : Option String) (min_time_saved : Option Int)
    (skip limit : Nat) : List ResourceWithAuthor :=
  let q := matching_resources db type_filter status_filter tag discipline_filter min_time_saved
  let q := sort_by_newest q
  let q := (q.drop skip).take limit
  q.filterMap (with_author db)

/-- `GET /resources/{resource_id}`. -/
def get_resource (db : DB) (rid : ResourceId) : Except HErr ResourceWithAuthor :=
  match find_resource db rid with
  | none => .error ⟨404, "Resource not found"⟩
  | some r =>
    if r.is_hidden then .error ⟨404, "Resource not found"⟩
    else
      match with_author db r with
      | some rwa => .ok rwa
      | none =>
        .ok
          { res := r
            analytics := analytics_lookup db r.id
            author_name := "Unknown"
            author_email := none
            author_id := r.user_id }

/-! ### Resource creation, update, deletion (`backend/app/api/resources.py`) -/

structure ResourceCreate where
  type : ResourceType
  title : String
  content_text : String
  is_anonymous : Bool
  parent_id : Option ResourceId
  content_meta : List (String × String)
deriving DecidableEq, Repr

/-- The row the `create_resource` handler constructs: fields not passed to the
`Resource(...)` constructor take the model defaults. -/
def new_resource_row (uid : UserId) (data : ResourceCreate) (new_id : ResourceId)
    (now : Nat) (tags : List String) : Resource :=
  { id := new_id
    user_id := uid
    parent_id := data.parent_id
    type := data.type
    status := ResourceStatus.OPEN
    title := data.title
    content_text := data.content_text
    content_meta := data.content_meta
    is_anonymous := data.is_anonymous
    is_verified := false
    is_hidden := false
    system_tags := tags
    user_tags := []
    shadow_tags := []
    discipline := none
    time_saved_value := none
    created_at := now
    updated_at := now }

/-- The parent validation at the top of `create_resource`. -/
def parent_check (db : DB) (data : ResourceCreate) : Option HErr :=
  match data.parent_id with
  | none => none
  | some pid =>
    match find_resource db pid with
    | none => some ⟨400, "Parent resource not found"⟩
    | some parent =>
      if parent.type ≠ ResourceType.REQUEST then
        some ⟨400, "Solutions can only be added to requests"⟩
      else none

/-- `POST /resources`.  `extract_keywords` (YAKE auto-tagger service), the
fresh UUID and the clock are parameters; the notification emails are outward
effects with no database change. -/
def create_resource (db : DB) (current_user : User) (data : ResourceCreate)
    (extract_keywords : String → List String) (new_id : ResourceId) (now : Nat) :
    Except HErr Resource × DB :=
  match parent_check db data with
  | some e => (.error e, db)
  | none =>
    let tags := extract_keywords (data.title ++ " " ++ data.content_text)
    let r := new_resource_row current_user.id data new_id now tags
    let db1 : DB := { db with resources := db.resources ++ [r] }
    let db2 :=
      match data.parent_id with
      | none => db1
      | some pid =>
        match find_resource db1 pid with
        | some parent =>
          if parent.type = ResourceType.REQUEST then
            set_resource db1 pid (fun p => { p with status := ResourceStatus.SOLVED })
          else db1
        | none => db1
    (.ok r, db2)

/-- The `ResourceUpdate` request schema (the fields the claims mention; the
handler only ever applies `title`, `content_text` and `content_meta`). -/
structure ResourceUpdate where
  title : Option String
  content_text : Option String
  content_meta : Option (List (String × String))
  discipline : Option String
  time_saved_value : Option Int
deriving DecidableEq, Repr

/-- The three conditional field updates in the `update_resource` handler. -/
def apply_update (r : Resource) (upd : ResourceUpdate) : Resource :=
  let r := match upd.title with
    | some t => { r with title := t }
    | none => r
  let r := match upd.content_text with
    | some c => { r with content_text := c }
    | none => r
  match upd.content_meta with
  | some m => { r with content_meta := m }
  | none => r

/-- `PATCH /resources/{resource_id}`. -/
def update_resource (db : DB) (current_user : User) (rid : ResourceId)
    (upd : ResourceUpdate) : Except HErr Resource × DB :=
  match find_resource db rid with
  | none => (.error ⟨404, "Resource not found"⟩, db)
  | some r =>
    if r.user_id ≠ current_user.id then
      (.error ⟨403, "Only resource owner can update"⟩, db)
    else
      (.ok (apply_update r upd), set_resource db rid (fun x => apply_update x upd))

/-- The other-solutions query in `delete_resource`. -/
def other_solutions (db : DB) (pid : ResourceId) (rid : ResourceId) : List Resource :=
  db.resources.filter
    (fun s => decide (s.parent_id = some pid) && !decide (s.id = rid) && !s.is_hidden)

/-- `DELETE /resources/{resource_id}`. -/
def delete_resource (db : DB) (current_user : User) (rid : ResourceId) :
    Except HErr Unit × DB :=
  match find_resource db rid with
  | none => (.error ⟨404, "Resource not found"⟩, db)
  | some r =>
    if r.user_id ≠ current_user.id then
      (.error ⟨403, "Only resource owner can delete"⟩, db)
    else
      let db1 :=
        match r.parent_id with
        | none => db
        | some pid =>
          if (other_solutions db pid rid).isEmpty then
            set_resource db pid (fun p => { p with status := ResourceStatus.OPEN })
          else db
      (.ok (), { db1 with resources := db1.resources.filter (fun s => !decide (s.id = rid)) })

/-! ### Analytics (`backend/app/api/analytics.py`) -/

/-- `get_or_create_analytics`: returns the existing row or commits a fresh one
with all counters at zero. -/
def get_or_create_analytics (db : DB) (rid : ResourceId) : ResourceAnalytics × DB :=
  match analytics_lookup db rid with
  | some a => (a, db)
  | none =>
    let a : ResourceAnalytics :=
      { resource_id := rid, view_count := 0, save_count := 0, tried_count := 0,
        last_viewed := none }
    (a, { db with analytics := db.analytics ++ [a] })

/-- `POST /resources/{resource_id}/view`; the result carries the new view
count of the response dictionary. -/
def track_resource_view (db : DB) (rid : ResourceId) (now : Nat) :
    Except HErr Int × DB :=
  match find_resource db rid with
  | none => (.error ⟨404, "Resource not found"⟩, db)
  | some _ =>
    let out := get_or_create_analytics db rid
    let a := out.1
    let a' := { a with view_count := a.view_count + 1, last_viewed := some now }
    (.ok a'.view_count, set_analytics out.2 rid a')

def saved_pred (uid : UserId) (rid : ResourceId) (s : UserSavedResource) : Bool :=
  decide (s.user_id = uid) && decide (s.resource_id = rid)

/-- Whether a `UserSavedResource` row pairs `uid` with `rid`. -/
def is_saved (db : DB) (uid : UserId) (rid : ResourceId) : Bool :=
  (db.saved.find? (saved_pred uid rid)).isSome

/-- `POST /resources/{resource_id}/save`; the result carries the `is_saved`
flag and the new save count of the response dictionary. -/
def toggle_resource_save (db : DB) (current_user : User) (rid : ResourceId)
    (now : Nat) : Except HErr (Bool × Int) × DB :=
  match find_resource db rid with
  | none => (.error ⟨404, "Resource not found"⟩, db)
  | some _ =>
    let existing := db.saved.find? (saved_pred current_user.id rid)
    let out := get_or_create_analytics db rid
    let a := out.1
    let db1 := out.2
    match existing with
    | some _ =>
      let a' := { a with save_count := max 0 (a.save_count - 1) }
      let db2 : DB :=
        { db1 with saved := db1.saved.eraseP (saved_pred current_user.id rid) }
      (.ok (false, a'.save_count), set_analytics db2 rid a')
    | none =>
      let row : UserSavedResource :=
        { user_id := current_user.id, resource_id := rid, saved_at := now }
      let a' := { a with save_count := a.save_count + 1 }
      let db2 : DB := { db1 with saved := db1.saved ++ [row] }
      (.ok (true, a'.save_count), set_analytics db2 rid a')

/-- The save counter as reported by the analytics table (0 when no row). -/
def save_count (db : DB) (rid : ResourceId) : Int :=
  (analytics_lookup db rid).elim 0 (fun a => a.save_count)

/-- The view counter as reported by the analytics table (0 when no row). -/
def view_count (db : DB) (rid : ResourceId) : Int :=
  (analytics_lookup db rid).elim 0 (fun a => a.view_count)

/-- The `last_viewed` timestamp of the analytics row, when one exists. -/
def last_viewed (db : DB) (rid : ResourceId) : Option Nat :=
  (analytics_lookup db rid).elim none (fun a => a.last_viewed)

/-- Number of `UserSavedResource` rows for resource `rid` (all users). -/
def saved_rows (db : DB) (rid : ResourceId) : Nat :=
  db.saved.countP (fun s => decide (s.resource_id = rid))

/-- Number of `UserSavedResource` rows pairing `uid` with `rid`. -/
def user_rows (db : DB) (uid : UserId) (rid : ResourceId) : Nat :=
  db.saved.countP (saved_pred uid rid)

/-- The state invariant the save endpoints maintain: the `save_count` counter
of the analytics row equals the number of `UserSavedResource` rows for the
resource (and no rows exist before the analytics row is first created). -/
def save_consistent (db : DB) (rid : ResourceId) : Prop :=
  match analytics_lookup db rid with
  | some a => a.save_count = (saved_rows db rid : Int)
  | none => saved_rows db rid = 0

/-! ### Admin endpoints (`backend/app/api/admin.py`) -/

/-- The 403 error `check_admin` raises. -/
def admin_forbidden : HErr := ⟨403, "Only admins can access this endpoint"⟩

/-- `check_admin`. -/
def check_admin (current_user : User) : Except HErr User :=
  if current_user.role ≠ UserRole.ADMIN then .error admin_forbidden
  else .ok current_user

/-- `GET /admin/users`. -/
def list_users (db : DB) (current_user : User) (skip limit : Nat) :
    Except HErr (List User) × DB :=
  match check_admin current_user with
  | .error e => (.error e, db)
  | .ok _ => (.ok ((db.users.drop skip).take limit), db)

def UserRole.ofString? : String → Option UserRole
  | "STAFF" => some UserRole.STAFF
  | "ADMIN" => some UserRole.ADMIN
  | _ => none

/-- `PATCH /admin/users/{user_id}/role`; an invalid role string makes
`UserRole(...)` raise `ValueError`, an unhandled 500 before any write. -/
def update_user_role (db : DB) (current_user : User) (uid : UserId)
    (role_str : String) : Except HErr User × DB :=
  match check_admin current_user with
  | .error e => (.error e, db)
  | .ok _ =>
    match find_user db uid with
    | none => (.error ⟨404, "User not found"⟩, db)
    | some u =>
      match UserRole.ofString? role_str with
      | none => (.error ⟨500, "Internal Server Error"⟩, db)
      | some r =>
        (.ok { u with role := r }, set_user db uid (fun v => { v with role := r }))

/-- `PATCH /admin/users/{user_id}/status`. -/
def update_user_status (db : DB) (current_user : User) (uid : UserId)
    (active : Bool) : Except HErr User × DB :=
  match check_admin current_user with
  | .error e => (.error e, db)
  | .ok _ =>
    match find_user db uid with
    | none => (.error ⟨404, "User not found"⟩, db)
    | some u =>
      (.ok { u with is_active := active },
        set_user db uid (fun v => { v with is_active := active }))

/-- `PATCH /admin/users/{user_id}/approve`. -/
def approve_user (db : DB) (current_user : User) (uid : UserId) :
    Except HErr User × DB :=
  match check_admin current_user with
  | .error e => (.error e, db)
  | .ok _ =>
    match find_user db uid with
    | none => (.error ⟨404, "User not found"⟩, db)
    | some u =>
      (.ok { u with is_approved := true },
        set_user db uid (fun v => { v with is_approved := true }))

/-- `DELETE /admin/users/{user_id}`: deletes the user and all their
resources. -/
def delete_user (db : DB) (current_user : User) (uid : UserId) :
    Except HErr Unit × DB :=
  match check_admin current_user with
  | .error e => (.error e, db)
  | .ok _ =>
    match find_user db uid with
    | none => (.error ⟨404, "User not found"⟩, db)
    | some _ =>
      (.ok (),
        { db with
            users := db.users.filter (fun u => !decide (u.id = uid))
            resources := db.resources.filter (fun r => !decide (r.user_id = uid)) })

/-- `PATCH /admin/resources/{resource_id}/verify`. -/
def verify_resource (db : DB) (current_user : User) (rid : ResourceId) :
    Except HErr Resource × DB :=
  match check_admin current_user with
  | .error e => (.error e, db)
  | .ok _ =>
    match find_resource db rid with
    | none => (.error ⟨404, "Resource not found"⟩, db)
    | some r =>
      (.ok { r with is_verified := true },
        set_resource db rid (fun x => { x with is_verified := true }))

/-- `PATCH /admin/resources/{resource_id}/hide`. -/
def hide_resource (db : DB) (current_user : User) (rid : ResourceId) :
    Except HErr Resource × DB :=
  match check_admin current_user with
  | .error e => (.error e, db)
  | .ok _ =>
    match find_resource db rid with
    | none => (.error ⟨404, "Resource not found"⟩, db)
    | some r =>
      (.ok { r with is_hidden := true },
        set_resource db rid (fun x => { x with is_hidden := true }))

/-- `PATCH /admin/resources/{resource_id}/unhide`. -/
def unhide_resource (db : DB) (current_user : User) (rid : ResourceId) :
    Except HErr Resource × DB :=
  match check_admin current_user with
  | .error e => (.error e, db)
  | .ok _ =>
    match find_resource db rid with
    | none => (.error ⟨404, "Resource not found"⟩, db)
    | some r =>
      (.ok { r with is_hidden := false },
        set_resource db rid (fun x => { x with is_hidden := false }))

/-- `GET /admin/config/values`. -/
def list_config_values (db : DB) (current_user : User)
    (config_type : Option String) (active_filter : Option Bool) :
    Except HErr (List ConfigurableValue) × DB :=
  match check_admin current_user with
  | .error e => (.error e, db)
  | .ok _ =>
    let q := db.config_values
    let q := match config_type with
      | some t => q.filter (fun v => decide (v.type = t))
      | none => q
    let q := match active_filter with
      | some b => q.filter (fun v => decide (v.is_active = b))
      | none => q
    (.ok q, db)

/-- Modelled from the spec: `ConfigService.update_value`
(`app/services/config.py` is absent from the repository snapshot); per the
admin endpoint's call and the spec's "edit runtime configuration", it updates
the provided non-null fields `label`, `description` and `is_active` of the
config value. -/
def config_update_value (v : ConfigurableValue) (label : Option String)
    (descr : Option String) (active : Option Bool) : ConfigurableValue :=
  { v with
      label := label.getD v.label
      description := match descr with
        | some d => some d
        | none => v.description
      is_active := active.getD v.is_active }

/-- `PATCH /admin/config/values/{value_id}`. -/
def update_config_value (db : DB) (current_user : User) (vid : Nat)
    (label : Option String) (descr : Option String) (active : Option Bool) :
    Except HErr ConfigurableValue × DB :=
  match check_admin current_user with
  | .error e => (.error e, db)
  | .ok _ =>
    match db.config_values.find? (fun v => decide (v.id = vid)) with
    | none => (.error ⟨404, "Config value not found"⟩, db)
    | some v =>
      (.ok (config_update_value v label descr active),
        { db with
            config_values := db.config_values.map
              (fun x => if decide (x.id = vid) then config_update_value x label descr active else x) })

/-! ### Enumerations of resource types, and concrete sample data -/

/-- The five types the specification glossary lists. -/
def five_types : List ResourceType :=
  [.REQUEST, .USE_CASE, .PROMPT, .TOOL, .POLICY]

/-- The nine members of the `ResourceType` enum in `models.py`. -/
def all_resource_types : List ResourceType :=
  [.REQUEST, .USE_CASE, .PROMPT, .TOOL, .POLICY, .PAPER, .PROJECT, .CONFERENCE, .DATASET]

def adminUser : User :=
  { id := 1, email := "admin@curtin.edu.au", hashed_password := "h1",
    full_name := "Admin One", role := .ADMIN, is_active := true, is_approved := true }

def staffUser : User :=
  { id := 2, email := "staff@curtin.edu.au", hashed_password := "h2",
    full_name := "Staff Two", role := .STAFF, is_active := true, is_approved := true }

def sampleResource : Resource :=
  { id := 10, user_id := 2, parent_id := none, type := .PROMPT,
    status := .OPEN, title := "Prompting", content_text := "ai prompt",
    content_meta := [], is_anonymous := false, is_verified := false,
    is_hidden := false, system_tags := ["ai"], user_tags := [],
    shadow_tags := [], discipline := some "Marketing",
    time_saved_value := some 3, created_at := 100, updated_at := 100 }

def sampleConfig : ConfigurableValue :=
  { id := 1, key := "k", type := "TOOL", label := "Label",
    description := none, category := none, is_active := true }

def emptyDB : DB :=
  { users := [], resources := [], analytics := [], saved := [],
    subscriptions := [], verifications := [], config_values := [] }

def sampleDB : DB :=
  { users := [adminUser, staffUser], resources := [sampleResource],
    analytics := [], saved := [], subscriptions := [],
    verifications := [], config_values := [sampleConfig] }

def paperCreate : ResourceCreate :=
  { type := .PAPER, title := "Paper", content_text := "text",
    is_anonymous := false, parent_id := none, content_meta := [] }

def paperRow : Resource := new_resource_row staffUser.id paperCreate 99 5 []

/-- Replacing one user's `full_name` and `email`, leaving every other column
and table unchanged: the relation between the two database states of the
anonymity hyperproperty. -/
def rename_user_db (db : DB) (uid : UserId) (name email : String) : DB :=
  { db with
      users := db.users.map
        (fun u => if decide (u.id = uid) then { u with full_name := name, email := email } else u) }

def requestResource : Resource :=
  { id := 20, user_id := 2, parent_id := none, type := .REQUEST,
    status := .OPEN, title := "Need help", content_text := "please",
    content_meta := [], is_anonymous := false, is_verified := false,
    is_hidden := false, system_tags := [], user_tags := [],
    shadow_tags := [], discipline := none, time_saved_value := none,
    created_at := 50, updated_at := 50 }

def reqDB : DB :=
  { users := [adminUser, staffUser], resources := [requestResource],
    analytics := [], saved := [], subscriptions := [],
    verifications := [], config_values := [] }

def solutionCreate : ResourceCreate :=
  { type := .USE_CASE, title := "Fix", content_text := "done",
    is_anonymous := false, parent_id := some 20, content_meta := [] }

def anonResource : Resource :=
  { id := 30, user_id := 2, parent_id := none, type := .PROMPT,
    status := .OPEN, title := "Anon prompt", content_text := "secret sauce",
    content_meta := [], is_anonymous := true, is_verified := false,
    is_hidden := false, system_tags := ["ai"], user_tags := [],
    shadow_tags := [], discipline := none, time_saved_value := none,
    created_at := 60, updated_at := 60 }

def anonDB : DB :=
  { users := [adminUser, staffUser], resources := [anonResource],
    analytics := [], saved := [], subscriptions := [],
    verifications := [], config_values := [] }

def regData : UserCreate :=
  { email := "First@curtin.edu.au", full_name := "First User", password := "pw" }

def regUser0 : User :=
  { id := 7, email := "first@curtin.edu.au", hashed_password := "pw",
    full_name := "First User", role := .ADMIN, is_active := true, is_approved := true }

def regDB0 : DB :=
  { emptyDB with users := [regUser0], verifications := [⟨7, "123456", 3600⟩] }

/-! ### General list lemmas -/

theorem find?_map_ite {α : Type} (p : α → Bool) (f : α → α) (l : List α)
    (hf : ∀ a, p a = true → p (f a) = true) :
    (l.map (fun a => if p a then f a else a)).find? p = (l.find? p).map f := by
  induction l with
  | nil => rfl
  | cons a l ih =>
    by_cases h : p a = true
    · simp [h, hf a h]
    · simp [h, ih]

theorem find?_filter_comm {α : Type} (p g : α → Bool) (l : List α)
    (h : ∀ a, p a = true → g a = true) :
    (l.filter g).find? p = l.find? p := by
  induction l with
  | nil => rfl
  | cons a l ih =>
    by_cases hp : p a = true
    · simp [List.filter_cons, h a hp, hp]
    · by_cases hg : g a = true <;> simp [List.filter_cons, hg, hp, ih]

theorem find?_map_congr {α : Type} (f : α → α) (p : α → Bool) (l : List α)
    (hf : ∀ a, p (f a) = p a) :
    (l.map f).find? p = (l.find? p).map f := by
  induction l with
  | nil => rfl
  | cons a l ih =>
    by_cases h : p a = true
    · have hfa : p (f a) = true := by rw [hf a]; exact h
      simp [List.find?_cons_of_pos _ hfa, List.find?_cons_of_pos _ h]
    · have hfa : ¬p (f a) = true := by rw [hf a]; exact h
      simp only [List.map_cons, List.find?_cons_of_neg _ hfa,
        List.find?_cons_of_neg _ h, ih]

theorem countP_eraseP_le {α : Type} (p q : α → Bool) (l : List α)
    (hpq : ∀ a, q a = true → p a = true) (hl : l.any q = true) :
    (l.eraseP q).countP p + 1 = l.countP p := by
  induction l with
  | nil => simp at hl
  | cons a l ih =>
    by_cases hq : q a = true
    · simp [List.eraseP_cons_of_pos hq, List.countP_cons_of_pos _ _ (hpq a hq)]
    · have hl' : l.any q = true := by
        rcases List.any_eq_true.mp hl with ⟨x, hx, hqx⟩
        rcases List.mem_cons.mp hx with rfl | hx
        · exact absurd hqx hq
        · exact List.any_eq_true.mpr ⟨x, hx, hqx⟩
      by_cases hp : p a = true <;>
        simp [List.eraseP_cons_of_neg hq, hp, ih hl', Nat.add_assoc, Nat.add_comm]

/-! ### Facts about the embedded operations -/

theorem with_author_res {db : DB} {r : Resource} {x : ResourceWithAuthor}
    (h : with_author db r = some x) : x.res = r := by
  unfold with_author at h
  cases hu : author_lookup db r.user_id with
  | none => rw [hu] at h; cases h
  | some u =>
    rw [hu] at h
    cases h
    rfl

theorem mem_opt_filter {β : Type} {o : Option β} {p : β → Resource → Bool}
    {l : List Resource} {r : Resource} (h : r ∈ opt_filter o p l) :
    r ∈ l ∧ ∀ b, o = some b → p b r = true := by
  cases o with
  | none => exact ⟨h, fun b hb => by cases hb⟩
  | some b =>
    rw [opt_filter] at h
    rcases List.mem_filter.mp h with ⟨h1, h2⟩
    exact ⟨h1, fun c hc => by cases hc; exact h2⟩

theorem mem_if_truthy_filter {o : Option String} {p : String → Resource → Bool}
    {l : List Resource} {r : Resource} (h : r ∈ if_truthy_filter o p l) :
    r ∈ l ∧ ∀ s, o = some s → s ≠ "" → p s r = true := by
  cases o with
  | none => exact ⟨h, fun s hs => by cases hs⟩
  | some s =>
    rw [if_truthy_filter] at h
    by_cases hs : s = ""
    · rw [if_pos hs] at h
      exact ⟨h, fun t ht htne => by cases ht; exact absurd hs htne⟩
    · rw [if_neg hs] at h
      rcases List.mem_filter.mp h with ⟨h1, h2⟩
      exact ⟨h1, fun t ht _ => by cases ht; exact h2⟩

theorem find_resource_set_resource (db : DB) (rid : ResourceId)
    (f : Resource → Resource) (hf : ∀ r, (f r).id = r.id) :
    find_resource (set_resource db rid f) rid = (find_resource db rid).map f := by
  unfold find_resource set_resource
  exact find?_map_ite _ f db.resources (fun a ha => by simpa [hf a] using ha)

theorem mem_insert_by_newest {x r : Resource} {l : List Resource}
    (h : x ∈ insert_by_newest r l) : x = r ∨ x ∈ l := by
  induction l with
  | nil =>
    rw [insert_by_newest] at h
    exact Or.inl (List.mem_singleton.mp h)
  | cons s rest ih =>
    rw [insert_by_newest] at h
    by_cases hc : s.created_at ≤ r.created_at
    · rw [if_pos hc] at h
      rcases List.mem_cons.mp h with rfl | h2
      · exact Or.inl rfl
      · exact Or.inr h2
    · rw [if_neg hc] at h
      rcases List.mem_cons.mp h with rfl | h2
      · exact Or.inr (List.mem_cons_self _ _)
      · rcases ih h2 with rfl | h3
        · exact Or.inl rfl
        · exact Or.inr (List.mem_cons_of_mem _ h3)

theorem mem_sort_by_newest {x : Resource} {l : List Resource}
    (h : x ∈ sort_by_newest l) : x ∈ l := by
  induction l with
  | nil => rw [sort_by_newest] at h; exact h
  | cons r rest ih =>
    rw [sort_by_newest] at h
    rcases mem_insert_by_newest h with rfl | h2
    · exact List.mem_cons_self _ _
    · exact List.mem_cons_of_mem _ (ih h2)

theorem analytics_lookup_set (db : DB) (rid : ResourceId) (a : ResourceAnalytics)
    (ha : a.resource_id = rid) :
    analytics_lookup (set_analytics db rid a) rid =
      (analytics_lookup db rid).map (fun _ => a) := by
  unfold analytics_lookup set_analytics
  exact find?_map_ite _ (fun _ => a) db.analytics (fun x _ => by simpa using ha)

theorem apply_update_fields (r : Resource) (upd : ResourceUpdate) :
    (apply_update r upd).title = upd.title.getD r.title ∧
    (apply_update r upd).content_text = upd.content_text.getD r.content_text ∧
    (apply_update r upd).content_meta = upd.content_meta.getD r.content_meta ∧
    (apply_update r upd).id = r.id ∧
    (apply_update r upd).user_id = r.user_id ∧
    (apply_update r upd).parent_id = r.parent_id ∧
    (apply_update r upd).type = r.type ∧
    (apply_update r upd).status = r.status ∧
    (apply_update r upd).is_anonymous = r.is_anonymous ∧
    (apply_update r upd).is_verified = r.is_verified ∧
    (apply_update r upd).is_hidden = r.is_hidden ∧
    (apply_update r upd).system_tags = r.system_tags ∧
    (apply_update r upd).user_tags = r.user_tags ∧
    (apply_update r upd).shadow_tags = r.shadow_tags ∧
    (apply_update r upd).discipline = r.discipline ∧
    (apply_update r upd).time_saved_value = r.time_saved_value ∧
    (apply_update r upd).created_at = r.created_at ∧
    (apply_update r upd).updated_at = r.updated_at := by
  obtain ⟨t, c, m, d, v⟩ := upd
  cases t <;> cases c <;> cases m <;> simp [apply_update]

/-! ### Claim theorems -/

/-- Claim C10: a registration performed when the user table is empty creates
the new user with role `ADMIN`, and every registration performed when at
least one user already exists creates the new user with role `STAFF`. -/
theorem register_first_user_admin (db : DB) (data : UserCreate)
    (domains wl : List String) (hp : String → String) (nid : UserId)
    (code : String) (now : Nat) (usr : User) (db2 : DB)
    (h : register db data domains wl hp nid code now = (.ok usr, db2)) :
    (db.users = [] → usr.role = UserRole.ADMIN) ∧
    (db.users ≠ [] → usr.role = UserRole.STAFF) ∧ usr ∈ db2.users := by
  unfold register at h
  cases hf : db.users.find? (fun u => decide (u.email = lower data.email)) with
  | some u => rw [hf] at h; simp at h
  | none =>
    rw [hf] at h
    simp only [Bool.not_eq_true'] at h
    split at h
    · simp at h
    · simp only [Prod.mk.injEq, Except.ok.injEq] at h
      obtain ⟨h1, h2⟩ := h
      subst h1
      subst h2
      refine ⟨fun he => ?_, fun hne => ?_, ?_⟩
      · simp [he]
      · have : db.users.isEmpty = false := by
          cases hu : db.users with
          | nil => exact absurd hu hne
          | cons a l => simp
        simp [this]
      · simp

/-- Witness for C10: on an empty database, a successful registration yields
an `ADMIN` user. -/
theorem register_first_user_admin_witness : regUser0.role = UserRole.ADMIN :=
  (register_first_user_admin emptyDB regData ["curtin.edu.au"] [] (fun s => s)
    7 "123456" 0 regUser0 regDB0 rfl).1 rfl

/-- Claim C6: `subscribe` creates the (user, tag) subscription exactly when
none exists and fails with HTTP 400 leaving the table unchanged otherwise;
`unsubscribe` deletes the pair exactly when it exists and fails with HTTP 404
leaving the table unchanged otherwise. -/
theorem subscribe_unsubscribe_spec (db : DB) (u : User) (tag : String) :
    (is_subscribed db u.id tag = false →
      subscribe db u tag =
        (.ok ⟨u.id, tag⟩,
          { db with subscriptions := db.subscriptions ++ [⟨u.id, tag⟩] }) ∧
      is_subscribed (subscribe db u tag).2 u.id tag = true ∧
      sub_count (subscribe db u tag).2 u.id tag = sub_count db u.id tag + 1) ∧
    (is_subscribed db u.id tag = true →
      subscribe db u tag = (.error ⟨400, "Already subscribed to this tag"⟩, db)) ∧
    (is_subscribed db u.id tag = true →
      (unsubscribe db u tag).1 = .ok () ∧
      (unsubscribe db u tag).2.subscriptions = db.subscriptions.eraseP (sub_pred u.id tag) ∧
      sub_count (unsubscribe db u tag).2 u.id tag + 1 = sub_count db u.id tag) ∧
    (is_subscribed db u.id tag = false →
      unsubscribe db u tag = (.error ⟨404, "Not subscribed to this tag"⟩, db)) := by
  cases hf : db.subscriptions.find? (sub_pred u.id tag) with
  | some s =>
    have hs : is_subscribed db u.id tag = true := by simp [is_subscribed, hf]
    have hany : db.subscriptions.any (sub_pred u.id tag) = true :=
      List.any_eq_true.mpr ⟨s, List.mem_of_find?_eq_some hf, List.find?_some hf⟩
    refine ⟨fun h0 => by simp [hs] at h0, fun _ => ?_, fun _ => ⟨?_, ?_, ?_⟩,
      fun h0 => by simp [hs] at h0⟩
    · simp [subscribe, hf]
    · simp [unsubscribe, hf]
    · simp [unsubscribe, hf]
    · have hdec := countP_eraseP_le (sub_pred u.id tag) (sub_pred u.id tag)
        db.subscriptions (fun _ hx => hx) hany
      simpa [unsubscribe, hf, sub_count] using hdec
  | none =>
    have hs : is_subscribed db u.id tag = false := by simp [is_subscribed, hf]
    refine ⟨fun _ => ⟨?_, ?_, ?_⟩, fun h1 => by simp [hs] at h1,
      fun h1 => by simp [hs] at h1, fun _ => ?_⟩
    · simp [subscribe, hf]
    · simp [is_subscribed, subscribe, hf, List.find?_append, sub_pred]
    · simp [sub_count, subscribe, hf, sub_pred]
    · simp [unsubscribe, hf]

/-- Witness for C6: on the sample database (no subscriptions), subscribing
appends the pair and double-subscription is rejected. -/
theorem subscribe_unsubscribe_spec_witness :
    subscribe sampleDB staffUser "ai" =
      (.ok ⟨staffUser.id, "ai"⟩,
        { sampleDB with subscriptions := sampleDB.subscriptions ++ [⟨staffUser.id, "ai"⟩] }) :=
  ((subscribe_unsubscribe_spec sampleDB staffUser "ai").1 (by decide)).1

/-- Counterexample to C3: `create_resource` accepts and stores a resource of
type `PAPER`, a `ResourceType` outside the five-value set the claim allows. -/
theorem resource_type_five_counterexample :
    (create_resource sampleDB staffUser paperCreate (fun _ => []) 99 5).1 = .ok paperRow ∧
    paperRow ∈ (create_resource sampleDB staffUser paperCreate (fun _ => []) 99 5).2.resources ∧
    paperRow.type ∉ five_types :=
  ⟨rfl, by decide, by decide⟩

/-- Claim C3 (amended): every `Resource`'s type is one of the nine values of
the `ResourceType` enum (request, use case, prompt, tool, policy, paper,
project, conference, dataset), and `create_resource` stores exactly the
requested type, always within this nine-value set. -/
theorem resource_type_closed (db : DB) (u : User) (data : ResourceCreate)
    (kw : String → List String) (nid : ResourceId) (now : Nat) (r : Resource)
    (db2 : DB) (h : create_resource db u data kw nid now = (.ok r, db2)) :
    r.type = data.type ∧ r.type ∈ all_resource_types ∧
    ∀ t : ResourceType, t ∈ all_resource_types := by
  have htype : r.type = data.type := by
    unfold create_resource at h
    split at h
    · simp at h
    · simp only [Prod.mk.injEq, Except.ok.injEq] at h
      rw [← h.1]
      rfl
  have hall : ∀ t : ResourceType, t ∈ all_resource_types := by
    intro t
    cases t <;> simp [all_resource_types]
  exact ⟨htype, htype ▸ hall data.type, hall⟩

/-- Witness for C3 (amended): the concrete `PAPER` creation stores type
`PAPER`, a member of the nine-value enum. -/
theorem resource_type_closed_witness :
    paperRow.type = paperCreate.type ∧ paperRow.type ∈ all_resource_types ∧
    ∀ t : ResourceType, t ∈ all_resource_types :=
  resource_type_closed sampleDB staffUser paperCreate (fun _ => []) 99 5
    paperRow (create_resource sampleDB staffUser paperCreate (fun _ => []) 99 5).2
    rfl

/-- Claim C2: every admin moderation and configuration endpoint fails with
HTTP 403 and leaves the state unchanged when the caller's role is not
`ADMIN`; for an `ADMIN` caller and an existing resource, `hide_resource`
sets `is_hidden` to true. -/
theorem admin_endpoints_guard (db : DB) (caller : User) (uid : UserId)
    (rid : ResourceId) (vid : Nat) (skip limit : Nat) (role_str : String)
    (active : Bool) (ctype : Option String) (af : Option Bool)
    (lbl descr : Option String) (ab : Option Bool) :
    (caller.role ≠ UserRole.ADMIN →
      list_users db caller skip limit = (.error admin_forbidden, db) ∧
      update_user_role db caller uid role_str = (.error admin_forbidden, db) ∧
      update_user_status db caller uid active = (.error admin_forbidden, db) ∧
      approve_user db caller uid = (.error admin_forbidden, db) ∧
      delete_user db caller uid = (.error admin_forbidden, db) ∧
      verify_resource db caller rid = (.error admin_forbidden, db) ∧
      hide_resource db caller rid = (.error admin_forbidden, db) ∧
      unhide_resource db caller rid = (.error admin_forbidden, db) ∧
      list_config_values db caller ctype af = (.error admin_forbidden, db) ∧
      update_config_value db caller vid lbl descr ab = (.error admin_forbidden, db)) ∧
    (caller.role = UserRole.ADMIN → ∀ r, find_resource db rid = some r →
      (hide_resource db caller rid).1 = .ok { r with is_hidden := true } ∧
      find_resource (hide_resource db caller rid).2 rid =
        some { r with is_hidden := true }) := by
  constructor
  · intro h
    have hc : check_admin caller = .error admin_forbidden := by
      simp [check_admin, h]
    exact ⟨by simp [list_users, hc], by simp [update_user_role, hc],
      by simp [update_user_status, hc], by simp [approve_user, hc],
      by simp [delete_user, hc], by simp [verify_resource, hc],
      by simp [hide_resource, hc], by simp [unhide_resource, hc],
      by simp [list_config_values, hc], by simp [update_config_value, hc]⟩
  · intro h r hr
    have hc : check_admin caller = .ok caller := by
      simp [check_admin, h]
    have hset := find_resource_set_resource db rid
      (fun x => { x with is_hidden := true }) (fun _ => rfl)
    rw [hr] at hset
    constructor
    · simp [hide_resource, hc, hr]
    · simp only [hide_resource, hc, hr]
      simpa using hset

/-- Witness for C2: on the sample database the staff caller is rejected by
`hide_resource` with the 403 error, and the admin caller hides the sample
resource. -/
theorem admin_endpoints_guard_witness :
    hide_resource sampleDB staffUser 10 = (.error admin_forbidden, sampleDB) ∧
    find_resource (hide_resource sampleDB adminUser 10).2 10 =
      some { sampleResource with is_hidden := true } :=
  ⟨((admin_endpoints_guard sampleDB staffUser 2 10 1 0 10 "STAFF" true none none
      none none none).1 (by decide)).2.2.2.2.2.2.1,
   ((admin_endpoints_guard sampleDB adminUser 2 10 1 0 10 "STAFF" true none none
      none none none).2 (by decide) sampleResource (by decide)).2⟩

/-- Claim C5: for an existing resource, `track_resource_view` increments its
view count by exactly one, updates `last_viewed`, and returns the new count;
for a missing resource it fails with HTTP 404, creates no analytics record
and changes no counter. -/
theorem track_view_spec (db : DB) (rid : ResourceId) (now : Nat) :
    ((find_resource db rid).isSome = true →
      (track_resource_view db rid now).1 = .ok (view_count db rid + 1) ∧
      view_count (track_resource_view db rid now).2 rid = view_count db rid + 1 ∧
      last_viewed (track_resource_view db rid now).2 rid = some now) ∧
    (find_resource db rid = none →
      track_resource_view db rid now = (.error ⟨404, "Resource not found"⟩, db)) := by
  constructor
  · intro h
    obtain ⟨r, hr⟩ := Option.isSome_iff_exists.mp h
    cases ha : analytics_lookup db rid with
    | some a0 =>
      have ha0 : a0.resource_id = rid := by
        have := List.find?_some ha
        exact of_decide_eq_true this
      have hset := analytics_lookup_set db rid
        { a0 with view_count := a0.view_count + 1, last_viewed := some now } ha0
      rw [ha] at hset
      refine ⟨?_, ?_, ?_⟩ <;>
        simp [track_resource_view, hr, get_or_create_analytics, ha, view_count,
          last_viewed, hset]
    | none =>
      have hfresh : analytics_lookup
          { db with analytics := db.analytics ++
              [{ resource_id := rid, view_count := 0, save_count := 0,
                 tried_count := 0, last_viewed := none }] } rid =
          some { resource_id := rid, view_count := 0, save_count := 0,
                 tried_count := 0, last_viewed := none } := by
        unfold analytics_lookup at ha ⊢
        simp [List.find?_append, ha]
      have hset := analytics_lookup_set
        { db with analytics := db.analytics ++
            [{ resource_id := rid, view_count := 0, save_count := 0,
               tried_count := 0, last_viewed := none }] } rid
        { resource_id := rid, view_count := 1, save_count := 0,
          tried_count := 0, last_viewed := some now } rfl
      rw [hfresh] at hset
      refine ⟨?_, ?_, ?_⟩ <;>
        simp [track_resource_view, hr, get_or_create_analytics, ha, view_count,
          last_viewed, hset]
  · intro h
    simp [track_resource_view, h]

/-- Witness for C5: viewing the sample resource (no analytics row yet)
returns count 1 and records it; viewing a missing id returns 404 and leaves
the database unchanged. -/
theorem track_view_spec_witness :
    (track_resource_view sampleDB 10 7).1 = .ok 1 ∧
    view_count (track_resource_view sampleDB 10 7).2 10 = 1 ∧
    last_viewed (track_resource_view sampleDB 10 7).2 10 = some 7 ∧
    track_resource_view sampleDB 55 7 = (.error ⟨404, "Resource not found"⟩, sampleDB) := by
  have h1 := (track_view_spec sampleDB 10 7).1 (by decide)
  have h2 := (track_view_spec sampleDB 55 7).2 (by decide)
  exact ⟨h1.1, h1.2.1, h1.2.2, h2⟩

/-- Claim C7: when the owner updates a resource, exactly the supplied
non-null fields among `title`, `content_text`, `content_meta` change and
every other field keeps its value; a non-owner caller gets HTTP 403 and the
resource is unchanged. -/
theorem update_resource_frame (db : DB) (caller : User) (rid : ResourceId)
    (upd : ResourceUpdate) (r : Resource) (hr : find_resource db rid = some r) :
    (r.user_id = caller.id →
      (update_resource db caller rid upd).1 = .ok (apply_update r upd) ∧
      find_resource (update_resource db caller rid upd).2 rid =
        some (apply_update r upd) ∧
      (apply_update r upd).title = upd.title.getD r.title ∧
      (apply_update r upd).content_text = upd.content_text.getD r.content_text ∧
      (apply_update r upd).content_meta = upd.content_meta.getD r.content_meta ∧
      (apply_update r upd).type = r.type ∧
      (apply_update r upd).status = r.status ∧
      (apply_update r upd).system_tags = r.system_tags ∧
      (apply_update r upd).user_tags = r.user_tags ∧
      (apply_update r upd).shadow_tags = r.shadow_tags ∧
      (apply_update r upd).is_hidden = r.is_hidden ∧
      (apply_update r upd).is_verified = r.is_verified ∧
      (apply_update r upd).parent_id = r.parent_id ∧
      (apply_update r upd).created_at = r.created_at ∧
      (apply_update r upd).is_anonymous = r.is_anonymous ∧
      (apply_update r upd).user_id = r.user_id ∧
      (apply_update r upd).discipline = r.discipline ∧
      (apply_update r upd).time_saved_value = r.time_saved_value) ∧
    (r.user_id ≠ caller.id →
      update_resource db caller rid upd =
        (.error ⟨403, "Only resource owner can update"⟩, db)) := by
  have hfields := apply_update_fields r upd
  constructor
  · intro howner
    have hid : ∀ x : Resource, (apply_update x upd).id = x.id :=
      fun x => (apply_update_fields x upd).2.2.2.1
    have hset := find_resource_set_resource db rid (fun x => apply_update x upd) hid
    rw [hr] at hset
    refine ⟨by simp [update_resource, hr, howner], ?_, hfields.1, hfields.2.1,
      hfields.2.2.1, hfields.2.2.2.2.2.2.1, hfields.2.2.2.2.2.2.2.1,
      hfields.2.2.2.2.2.2.2.2.2.2.2.1, hfields.2.2.2.2.2.2.2.2.2.2.2.2.1,
      hfields.2.2.2.2.2.2.2.2.2.2.2.2.2.1, hfields.2.2.2.2.2.2.2.2.2.2.1,
      hfields.2.2.2.2.2.2.2.2.2.1, hfields.2.2.2.2.2.1,
      hfields.2.2.2.2.2.2.2.2.2.2.2.2.2.2.2.2.1, hfields.2.2.2.2.2.2.2.2.1,
      hfields.2.2.2.2.1, hfields.2.2.2.2.2.2.2.2.2.2.2.2.2.2.1,
      hfields.2.2.2.2.2.2.2.2.2.2.2.2.2.2.2.1⟩
    simp only [update_resource, hr, howner]
    simp only [ne_eq, not_true_eq_false, if_neg, ite_false]
    simpa using hset
  · intro hne
    simp [update_resource, hr, hne]

/-- Witness for C7: the owner updates the sample resource's title only; the
stored row keeps every other field, and the admin (non-owner) is rejected
with 403. -/
theorem update_resource_frame_witness :
    (update_resource sampleDB staffUser 10
        ⟨some "New", none, none, none, none⟩).1 =
      .ok (apply_update sampleResource ⟨some "New", none, none, none, none⟩) ∧
    update_resource sampleDB adminUser 10 ⟨some "New", none, none, none, none⟩ =
      (.error ⟨403, "Only resource owner can update"⟩, sampleDB) :=
  ⟨((update_resource_frame sampleDB staffUser 10
      ⟨some "New", none, none, none, none⟩ sampleResource (by decide)).1 rfl).1,
   (update_resource_frame sampleDB adminUser 10
      ⟨some "New", none, none, none, none⟩ sampleResource (by decide)).2 (by decide)⟩

/-- Counterexample to C1: the handler guards the tag and discipline clauses
with Python truthiness (`if tag:` / `if discipline:`), so a supplied empty
string skips the where-clause; `list_resources` then returns the sample
resource although the empty tag occurs in none of its three tag lists and
its discipline is not the (empty) discipline filter. -/
theorem list_resources_empty_filter_counterexample :
    (⟨sampleResource, none, staffUser.full_name, some staffUser.email,
        staffUser.id⟩ : ResourceWithAuthor) ∈
      list_resources sampleDB none none (some "") (some "") none 0 10 ∧
    ¬("" ∈ sampleResource.system_tags ∨ "" ∈ sampleResource.user_tags ∨
        "" ∈ sampleResource.shadow_tags) ∧
    sampleResource.discipline ≠ some "" :=
  ⟨by decide, by decide, by decide⟩

/-- Claim C1 (amended): every resource returned by `list_resources` is not
hidden and satisfies each enforced filter: its type equals a supplied type
filter, its status equals a supplied status filter, a supplied non-empty tag
occurs in the union of its `system_tags`, `user_tags` and `shadow_tags`, a
supplied non-empty discipline equals its discipline, and its
`time_saved_value` is at least a supplied `min_time_saved`; the tag and
discipline clauses are skipped for an empty supplied string, which the
handler's truthiness guards treat as absent. -/
theorem list_resources_filters_sound (db : DB) (tf : Option ResourceType)
    (sf : Option ResourceStatus) (tg df : Option String) (mts : Option Int)
    (skip limit : Nat) (x : ResourceWithAuthor)
    (hx : x ∈ list_resources db tf sf tg df mts skip limit) :
    x.res.is_hidden = false ∧
    (∀ t, tf = some t → x.res.type = t) ∧
    (∀ s, sf = some s → x.res.status = s) ∧
    (∀ g, tg = some g → g ≠ "" →
      g ∈ x.res.system_tags ∨ g ∈ x.res.user_tags ∨ g ∈ x.res.shadow_tags) ∧
    (∀ d, df = some d → d ≠ "" → x.res.discipline = some d) ∧
    (∀ m, mts = some m → ∃ v, x.res.time_saved_value = some v ∧ m ≤ v) := by
  unfold list_resources at hx
  rcases List.mem_filterMap.mp hx with ⟨r, hrmem, hwa⟩
  have hres : x.res = r := with_author_res hwa
  rw [hres]
  have hsorted : r ∈ sort_by_newest
      (matching_resources db tf sf tg df mts) :=
    List.drop_subset _ _ (List.take_subset _ _ hrmem)
  have hmatch : r ∈ matching_resources db tf sf tg df mts :=
    mem_sort_by_newest hsorted
  unfold matching_resources at hmatch
  obtain ⟨h3, hmts⟩ := mem_opt_filter hmatch
  obtain ⟨h4, hdf⟩ := mem_if_truthy_filter h3
  obtain ⟨h5, htg⟩ := mem_if_truthy_filter h4
  obtain ⟨h6, hsf⟩ := mem_opt_filter h5
  obtain ⟨h7, htf⟩ := mem_opt_filter h6
  have hhid : r.is_hidden = false := by
    have := (List.mem_filter.mp h7).2
    simpa using this
  refine ⟨hhid, ?_, ?_, ?_, ?_, ?_⟩
  · exact fun t ht => of_decide_eq_true (htf t ht)
  · exact fun s hs => of_decide_eq_true (hsf s hs)
  · intro g hg hgne
    have := htg g hg hgne
    simpa [tag_filter, or_assoc] using this
  · exact fun d hd hdne => of_decide_eq_true (hdf d hd hdne)
  · intro m hm
    have := hmts m hm
    unfold time_saved_filter at this
    cases hv : r.time_saved_value with
    | none => rw [hv] at this; cases this
    | some v =>
      rw [hv] at this
      exact ⟨v, rfl, of_decide_eq_true this⟩

/-- Witness for C1 (amended): on the sample database, filtering by type
`PROMPT`, non-empty tag `"ai"`, non-empty discipline `"Marketing"` and at
least 2 hours saved returns an entry, and that entry satisfies all the
enforced filters. -/
theorem list_resources_filters_sound_witness :
    (⟨sampleResource, none, staffUser.full_name, some staffUser.email,
        staffUser.id⟩ : ResourceWithAuthor) ∈
      list_resources sampleDB (some .PROMPT) none (some "ai") (some "Marketing")
        (some 2) 0 10 ∧
    sampleResource.is_hidden = false ∧ sampleResource.type = .PROMPT ∧
    ("ai" ∈ sampleResource.system_tags ∨ "ai" ∈ sampleResource.user_tags ∨
      "ai" ∈ sampleResource.shadow_tags) ∧
    sampleResource.discipline = some "Marketing" := by
  have hmem : (⟨sampleResource, none, staffUser.full_name, some staffUser.email,
      staffUser.id⟩ : ResourceWithAuthor) ∈
      list_resources sampleDB (some .PROMPT) none (some "ai") (some "Marketing")
        (some 2) 0 10 := by decide
  have h := list_resources_filters_sound sampleDB (some .PROMPT) none (some "ai")
    (some "Marketing") (some 2) 0 10 _ hmem
  exact ⟨hmem, h.1, h.2.1 .PROMPT rfl, h.2.2.2.1 "ai" rfl (by decide),
    h.2.2.2.2.1 "Marketing" rfl (by decide)⟩

theorem find_resource_filter_ne (db : DB) (rid pid : ResourceId) (hne : pid ≠ rid) :
    find_resource
      { db with resources := db.resources.filter (fun s => !decide (s.id = rid)) }
      pid = find_resource db pid := by
  unfold find_resource
  exact find?_filter_comm _ _ _ (fun a ha => by
    have h2 : a.id = pid := of_decide_eq_true ha
    simp [h2, hne])

theorem create_solution_characterized (db : DB) (u : User) (data : ResourceCreate)
    (pid : ResourceId) (parent : Resource) (kw : String → List String)
    (nid : ResourceId) (now : Nat) (hp : data.parent_id = some pid)
    (hfind : find_resource db pid = some parent)
    (hreq : parent.type = ResourceType.REQUEST) :
    create_resource db u data kw nid now =
      (.ok (new_resource_row u.id data nid now
          (kw (data.title ++ " " ++ data.content_text))),
        set_resource
          { db with resources := db.resources ++
              [new_resource_row u.id data nid now
                (kw (data.title ++ " " ++ data.content_text))] } pid
          (fun p => { p with status := ResourceStatus.SOLVED })) ∧
    find_resource (create_resource db u data kw nid now).2 pid =
      some { parent with status := ResourceStatus.SOLVED } := by
  have hchk : parent_check db data = none := by
    simp [parent_check, hp, hfind, hreq]
  have hfind1 : find_resource
      { db with resources := db.resources ++
          [new_resource_row u.id data nid now
            (kw (data.title ++ " " ++ data.content_text))] } pid = some parent := by
    unfold find_resource at hfind ⊢
    simp [List.find?_append, hfind]
  have heq : create_resource db u data kw nid now =
      (.ok (new_resource_row u.id data nid now
          (kw (data.title ++ " " ++ data.content_text))),
        set_resource
          { db with resources := db.resources ++
              [new_resource_row u.id data nid now
                (kw (data.title ++ " " ++ data.content_text))] } pid
          (fun p => { p with status := ResourceStatus.SOLVED })) := by
    simp [create_resource, hchk, hp, hfind1, hreq]
  refine ⟨heq, ?_⟩
  rw [heq]
  have hset := find_resource_set_resource
    { db with resources := db.resources ++
        [new_resource_row u.id data nid now
          (kw (data.title ++ " " ++ data.content_text))] } pid
    (fun p => { p with status := ResourceStatus.SOLVED }) (fun _ => rfl)
  rw [hfind1] at hset
  simpa using hset

theorem delete_last_solution_reopens (db : DB) (u : User) (rid pid : ResourceId)
    (r parent : Resource) (hr : find_resource db rid = some r)
    (howner : r.user_id = u.id) (hrp : r.parent_id = some pid) (hne : pid ≠ rid)
    (hpar : find_resource db pid = some parent)
    (hnosol : ∀ s ∈ db.resources, s.parent_id = some pid →
      s.id = rid ∨ s.is_hidden = true) :
    (delete_resource db u rid).1 = .ok () ∧
    find_resource (delete_resource db u rid).2 pid =
      some { parent with status := ResourceStatus.OPEN } := by
  have hempty : other_solutions db pid rid = [] := by
    unfold other_solutions
    rw [List.filter_eq_nil_iff]
    intro s hs
    by_cases hps : s.parent_id = some pid
    · rcases hnosol s hs hps with hid | hhid
      · simp [hps, hid]
      · simp [hps, hhid]
    · simp [hps]
  constructor
  · simp [delete_resource, hr, howner, hrp, hempty]
  · have hset := find_resource_set_resource db pid
      (fun p => { p with status := ResourceStatus.OPEN }) (fun _ => rfl)
    rw [hpar] at hset
    have hdel2 : (delete_resource db u rid).2 =
        { (set_resource db pid (fun p => { p with status := ResourceStatus.OPEN })) with
            resources := (set_resource db pid
                (fun p => { p with status := ResourceStatus.OPEN })).resources.filter
              (fun s => !decide (s.id = rid)) } := by
      simp [delete_resource, hr, howner, hrp, hempty]
    rw [hdel2, find_resource_filter_ne _ _ _ hne]
    simpa using hset

/-- Claim C8: creating a resource whose `parent_id` refers to an existing
`REQUEST` sets that parent's status to `SOLVED`; deleting a solution whose
parent has no other non-hidden solutions reverts the parent's status to
`OPEN`; hence creating a single solution under a request and deleting it
again leaves the parent's status `OPEN`. -/
theorem solution_status_lifecycle (db : DB) (u : User) (data : ResourceCreate)
    (pid : ResourceId) (parent : Resource) (kw : String → List String)
    (nid : ResourceId) (now : Nat)
    (hp : data.parent_id = some pid)
    (hfindp : find_resource db pid = some parent)
    (hreq : parent.type = ResourceType.REQUEST) :
    ((create_resource db u data kw nid now).1 =
        .ok (new_resource_row u.id data nid now
          (kw (data.title ++ " " ++ data.content_text))) ∧
      find_resource (create_resource db u data kw nid now).2 pid =
        some { parent with status := ResourceStatus.SOLVED }) ∧
    (∀ (db' : DB) (rid : ResourceId) (r par : Resource),
      find_resource db' rid = some r → r.user_id = u.id →
      r.parent_id = some pid → pid ≠ rid →
      find_resource db' pid = some par →
      (∀ s ∈ db'.resources, s.parent_id = some pid →
        s.id = rid ∨ s.is_hidden = true) →
      (delete_resource db' u rid).1 = .ok () ∧
      find_resource (delete_resource db' u rid).2 pid =
        some { par with status := ResourceStatus.OPEN }) ∧
    (pid ≠ nid → (∀ s ∈ db.resources, s.id ≠ nid) →
      (∀ s ∈ db.resources, s.parent_id ≠ some pid) →
      (delete_resource (create_resource db u data kw nid now).2 u nid).1 = .ok () ∧
      find_resource (delete_resource (create_resource db u data kw nid now).2 u nid).2 pid =
        some { parent with status := ResourceStatus.OPEN }) := by
  obtain ⟨heq, hsolved⟩ :=
    create_solution_characterized db u data pid parent kw nid now hp hfindp hreq
  refine ⟨⟨by rw [heq], hsolved⟩,
    fun db' rid r par h1 h2 h3 h4 h5 h6 =>
      delete_last_solution_reopens db' u rid pid r par h1 h2 h3 h4 h5 h6,
    fun hnp hfresh hnosolution => ?_⟩
  set row := new_resource_row u.id data nid now
    (kw (data.title ++ " " ++ data.content_text)) with hrow
  have hrowid : row.id = nid := rfl
  have hrowpar : row.parent_id = some pid := by
    rw [hrow]
    simpa [new_resource_row] using hp
  have hdb2 : (create_resource db u data kw nid now).2 =
      set_resource { db with resources := db.resources ++ [row] } pid
        (fun p => { p with status := ResourceStatus.SOLVED }) := by
    rw [heq]
  have hpres : ∀ a : Resource,
      (if decide (a.id = pid) then
        { a with status := ResourceStatus.SOLVED } else a).id = a.id := by
    intro a
    by_cases h : decide (a.id = pid) = true <;> simp [h]
  have hfindnid : find_resource (create_resource db u data kw nid now).2 nid =
      some row := by
    rw [hdb2]
    unfold find_resource set_resource
    rw [find?_map_congr _ _ _
      (fun a => by rw [hpres a])]
    have hnone : (db.resources.find? (fun s => decide (s.id = nid))) = none :=
      List.find?_eq_none.mpr (fun s hs => by simp [hfresh s hs])
    simp only [List.find?_append, hnone, Option.none_or]
    have : decide (row.id = nid) = true := by simp [hrowid]
    simp [List.find?_cons_of_pos _ this, Option.map_some, hrowid,
      Ne.symm hnp]
  have hnosol2 : ∀ s ∈ (create_resource db u data kw nid now).2.resources,
      s.parent_id = some pid → s.id = nid ∨ s.is_hidden = true := by
    rw [hdb2]
    intro s hs hsp
    rcases List.mem_map.mp hs with ⟨t, ht, hts⟩
    rcases List.mem_append.mp ht with htl | htr
    · exfalso
      have htp : t.parent_id = some pid := by
        by_cases h : decide (t.id = pid) = true
        · rw [if_pos h] at hts
          rw [← hts] at hsp
          exact hsp
        · rw [if_neg h] at hts
          rw [← hts] at hsp
          exact hsp
      exact hnosolution t htl htp
    · have hteq : t = row := List.mem_singleton.mp htr
      have hfneq : decide (t.id = pid) = false := by
        rw [hteq]
        exact decide_eq_false (by rw [hrowid]; exact fun h => hnp h.symm)
      rw [hfneq] at hts
      simp only [Bool.false_eq_true, if_false] at hts
      rw [← hts, hteq]
      exact Or.inl hrowid
  have hmain := delete_last_solution_reopens
    (create_resource db u data kw nid now).2 u nid pid row
    { parent with status := ResourceStatus.SOLVED }
    hfindnid rfl hrowpar hnp hsolved hnosol2
  exact ⟨hmain.1, by simpa using hmain.2⟩

/-- Witness for C8: creating a single solution under the sample open request
marks it `SOLVED`, and deleting that solution again leaves the request
`OPEN`. -/
theorem solution_status_lifecycle_witness :
    find_resource (create_resource reqDB staffUser solutionCreate (fun _ => []) 21 70).2 20 =
      some { requestResource with status := ResourceStatus.SOLVED } ∧
    find_resource
      (delete_resource (create_resource reqDB staffUser solutionCreate (fun _ => []) 21 70).2
        staffUser 21).2 20 =
      some { requestResource with status := ResourceStatus.OPEN } := by
  have h := solution_status_lifecycle reqDB staffUser solutionCreate 20
    requestResource (fun _ => []) 21 70 rfl (by decide) rfl
  exact ⟨h.1.2, (h.2.2 (by decide) (by decide) (by decide)).2⟩

theorem author_lookup_rename (db : DB) (uid : UserId) (name email : String)
    (w : UserId) :
    author_lookup (rename_user_db db uid name email) w =
      (author_lookup db w).map
        (fun u => if decide (u.id = uid) then
          { u with full_name := name, email := email } else u) := by
  unfold author_lookup rename_user_db
  exact find?_map_congr _ _ db.users
    (fun a => by by_cases h : decide (a.id = uid) = true <;> simp [h])

theorem with_author_rename (db : DB) (uid : UserId) (name email : String)
    (r : Resource) (hmask : r.user_id = uid → r.is_anonymous = true) :
    with_author (rename_user_db db uid name email) r = with_author db r := by
  unfold with_author
  rw [author_lookup_rename]
  cases hu : author_lookup db r.user_id with
  | none => rfl
  | some u0 =>
    have hu2 : db.users.find? (fun v => decide (v.id = r.user_id)) = some u0 := hu
    have huid : u0.id = r.user_id := by
      have h3 := List.find?_some hu2
      simpa using h3
    have han : analytics_lookup (rename_user_db db uid name email) r.id =
        analytics_lookup db r.id := rfl
    by_cases hc : decide (u0.id = uid) = true
    · have hceq : u0.id = uid := of_decide_eq_true hc
      have hanon : r.is_anonymous = true := by
        apply hmask
        rw [← huid]
        exact hceq
      simp [hanon, han, hceq]
    · have hcne : ¬(u0.id = uid) := fun h => hc (decide_eq_true h)
      simp [han, hcne]

theorem list_resources_rename (db : DB) (uid : UserId) (name email : String)
    (hall : ∀ s ∈ db.resources, s.user_id = uid → s.is_anonymous = true)
    (tf : Option ResourceType) (sf : Option ResourceStatus)
    (tg df : Option String) (mts : Option Int) (skip limit : Nat) :
    list_resources (rename_user_db db uid name email) tf sf tg df mts skip limit =
      list_resources db tf sf tg df mts skip limit := by
  have hmr : matching_resources (rename_user_db db uid name email) tf sf tg df mts =
      matching_resources db tf sf tg df mts := rfl
  unfold list_resources
  rw [hmr]
  apply List.filterMap_congr
  intro r hrq
  have hrdb : r ∈ db.resources := by
    have h1 : r ∈ matching_resources db tf sf tg df mts :=
      mem_sort_by_newest (List.drop_subset _ _ (List.take_subset _ _ hrq))
    unfold matching_resources at h1
    obtain ⟨h2, _⟩ := mem_opt_filter h1
    obtain ⟨h3, _⟩ := mem_if_truthy_filter h2
    obtain ⟨h4, _⟩ := mem_if_truthy_filter h3
    obtain ⟨h5, _⟩ := mem_opt_filter h4
    obtain ⟨h6, _⟩ := mem_opt_filter h5
    exact (List.mem_filter.mp h6).1
  exact with_author_rename db uid name email r (hall r hrdb)

/-- Claim C9: for a resource with `is_anonymous` true, the `list_resources`
and `get_resource` responses carry `author_name` "Faculty Member" and a null
`author_email` regardless of the author's stored name and email; two
database states differing only in the anonymous author's `full_name` and
`email` produce identical responses from these endpoints. -/
theorem anonymous_author_masking (db : DB) (u : User) (r : Resource)
    (name email : String)
    (hu : author_lookup db u.id = some u)
    (hr : find_resource db r.id = some r)
    (hanon : r.is_anonymous = true)
    (hown : r.user_id = u.id)
    (hall : ∀ s ∈ db.resources, s.user_id = u.id → s.is_anonymous = true) :
    (∀ x, get_resource db r.id = .ok x →
      x.author_name = "Faculty Member" ∧ x.author_email = none) ∧
    (∀ tf sf tg df mts skip limit x,
      x ∈ list_resources db tf sf tg df mts skip limit →
      x.res.is_anonymous = true →
      x.author_name = "Faculty Member" ∧ x.author_email = none) ∧
    (∀ tf sf tg df mts skip limit,
      list_resources (rename_user_db db u.id name email) tf sf tg df mts skip limit =
        list_resources db tf sf tg df mts skip limit) ∧
    get_resource (rename_user_db db u.id name email) r.id = get_resource db r.id := by
  refine ⟨?_, ?_, fun tf sf tg df mts skip limit =>
    list_resources_rename db u.id name email hall tf sf tg df mts skip limit, ?_⟩
  · intro x hx
    by_cases hh : r.is_hidden = true
    · simp [get_resource, hr, hh] at hx
    · have hwa : with_author db r = some
          { res := r
            analytics := analytics_lookup db r.id
            author_name := "Faculty Member"
            author_email := none
            author_id := u.id } := by
        unfold with_author
        rw [hown, hu]
        simp [hanon]
      simp only [get_resource, hr, hh, Bool.false_eq_true, if_false, hwa,
        Bool.not_eq_true] at hx
      cases hx
      exact ⟨rfl, rfl⟩
  · intro tf sf tg df mts skip limit x hx hxanon
    unfold list_resources at hx
    rcases List.mem_filterMap.mp hx with ⟨r', _, hwa⟩
    have hres : x.res = r' := with_author_res hwa
    unfold with_author at hwa
    cases hu' : author_lookup db r'.user_id with
    | none => rw [hu'] at hwa; cases hwa
    | some u0 =>
      rw [hu'] at hwa
      have hanon' : r'.is_anonymous = true := by rw [← hres]; exact hxanon
      cases hwa
      simp [hanon']
  · have hfind2 : find_resource (rename_user_db db u.id name email) r.id =
        find_resource db r.id := rfl
    have hrdb : r ∈ db.resources := List.mem_of_find?_eq_some hr
    have hwa := with_author_rename db u.id name email r (hall r hrdb)
    have han_eq : analytics_lookup (rename_user_db db u.id name email) r.id =
        analytics_lookup db r.id := rfl
    simp only [get_resource, hfind2, hr, hwa, han_eq]

/-- Witness for C9: on the anonymous sample database, renaming the author
changes neither the listing nor the single-resource response, and the
response fields are masked. -/
theorem anonymous_author_masking_witness :
    list_resources (rename_user_db anonDB staffUser.id "X" "x@y.z") none none
        none none none 0 10 =
      list_resources anonDB none none none none none 0 10 ∧
    get_resource (rename_user_db anonDB staffUser.id "X" "x@y.z") 30 =
      get_resource anonDB 30 ∧
    ∀ x, get_resource anonDB 30 = .ok x →
      x.author_name = "Faculty Member" ∧ x.author_email = none := by
  have h := anonymous_author_masking anonDB staffUser anonResource "X" "x@y.z"
    (by decide) (by decide) rfl rfl (by decide)
  exact ⟨h.2.2.1 none none none none none 0 10, h.2.2.2, h.1⟩

theorem is_saved_iff_user_rows (db : DB) (uid : UserId) (rid : ResourceId) :
    is_saved db uid rid = true ↔ 0 < user_rows db uid rid := by
  unfold is_saved user_rows
  rw [List.find?_isSome, ← List.countP_pos_iff]

theorem toggle_step (db : DB) (u : User) (rid : ResourceId) (now : Nat)
    (hres : (find_resource db rid).isSome = true)
    (hcons : save_consistent db rid)
    (hnodup : user_rows db u.id rid ≤ 1) :
    is_saved (toggle_resource_save db u rid now).2 u.id rid = !is_saved db u.id rid ∧
    save_count (toggle_resource_save db u rid now).2 rid =
      save_count db rid + (if is_saved db u.id rid then -1 else 1) ∧
    0 ≤ save_count (toggle_resource_save db u rid now).2 rid ∧
    save_consistent (toggle_resource_save db u rid now).2 rid ∧
    user_rows (toggle_resource_save db u rid now).2 u.id rid ≤ 1 ∧
    (find_resource (toggle_resource_save db u rid now).2 rid).isSome = true ∧
    (toggle_resource_save db u rid now).1 =
      .ok (!is_saved db u.id rid,
        save_count (toggle_resource_save db u rid now).2 rid) := by
  obtain ⟨r, hr⟩ := Option.isSome_iff_exists.mp hres
  have himp : ∀ s ∈ db.saved, saved_pred u.id rid s = true →
      decide (s.resource_id = rid) = true := by
    intro s _ hs
    simp only [saved_pred, Bool.and_eq_true] at hs
    exact hs.2
  cases he : db.saved.find? (saved_pred u.id rid) with
  | none =>
    have hsv : is_saved db u.id rid = false := by simp [is_saved, he]
    have hu0 : user_rows db u.id rid = 0 := by
      unfold user_rows
      rw [List.countP_eq_zero]
      intro a ha2
      have h4 := List.find?_eq_none.mp he a ha2
      simpa using h4
    have hprow : saved_pred u.id rid ⟨u.id, rid, now⟩ = true := by
      simp [saved_pred]
    cases ha : analytics_lookup db rid with
    | some a0 =>
      have har : a0.resource_id = rid := by
        have h3 := List.find?_some
          (show db.analytics.find? (fun x => decide (x.resource_id = rid)) = some a0 from ha)
        simpa using h3
      have hconsv : a0.save_count = (saved_rows db rid : Int) := by
        unfold save_consistent at hcons
        rw [ha] at hcons
        exact hcons
      have htog : toggle_resource_save db u rid now =
          (.ok (true, a0.save_count + 1),
            set_analytics { db with saved := db.saved ++ [⟨u.id, rid, now⟩] } rid
              { a0 with save_count := a0.save_count + 1 }) := by
        simp [toggle_resource_save, hr, he, get_or_create_analytics, ha]
      have hout : (toggle_resource_save db u rid now).1 =
          .ok (true, a0.save_count + 1) := by rw [htog]
      have hdb3 : (toggle_resource_save db u rid now).2 =
          set_analytics { db with saved := db.saved ++ [⟨u.id, rid, now⟩] } rid
            { a0 with save_count := a0.save_count + 1 } := by rw [htog]
      have ha2 : analytics_lookup
          { db with saved := db.saved ++ [⟨u.id, rid, now⟩] } rid = some a0 := ha
      have han3 : analytics_lookup (toggle_resource_save db u rid now).2 rid =
          some { a0 with save_count := a0.save_count + 1 } := by
        rw [hdb3, analytics_lookup_set _ rid
          { a0 with save_count := a0.save_count + 1 } har, ha2]
        rfl
      have hsav3 : (toggle_resource_save db u rid now).2.saved =
          db.saved ++ [⟨u.id, rid, now⟩] := by
        rw [hdb3]
        rfl
      have hres3 : (toggle_resource_save db u rid now).2.resources = db.resources := by
        rw [hdb3]
        rfl
      have hsc3 : save_count (toggle_resource_save db u rid now).2 rid =
          a0.save_count + 1 := by
        simp [save_count, han3]
      have hrows3 : saved_rows (toggle_resource_save db u rid now).2 rid =
          saved_rows db rid + 1 := by
        unfold saved_rows
        rw [hsav3, List.countP_append]
        simp [har]
      refine ⟨?_, ?_, ?_, ?_, ?_, ?_, ?_⟩
      · rw [hsv]
        unfold is_saved
        rw [hsav3, List.find?_append, he]
        simp [hprow]
      · rw [hsc3, hsv]
        simp [save_count, ha]
      · rw [hsc3, hconsv]
        omega
      · unfold save_consistent
        rw [han3, hrows3]
        push_cast
        omega
      · unfold user_rows
        rw [hsav3, List.countP_append]
        have : List.countP (saved_pred u.id rid) [⟨u.id, rid, now⟩] = 1 := by
          simp [hprow]
        rw [this]
        unfold user_rows at hu0
        omega
      · unfold find_resource
        rw [hres3]
        exact hres
      · rw [hsc3, hsv, hout]
        rfl
    | none =>
      have hrows0 : saved_rows db rid = 0 := by
        unfold save_consistent at hcons
        rw [ha] at hcons
        exact hcons
      have htog : toggle_resource_save db u rid now =
          (.ok (true, 1),
            set_analytics
              { db with
                  analytics := db.analytics ++ [⟨rid, 0, 0, 0, none⟩],
                  saved := db.saved ++ [⟨u.id, rid, now⟩] } rid
              ⟨rid, 0, 1, 0, none⟩) := by
        simp [toggle_resource_save, hr, he, get_or_create_analytics, ha]
      have hout : (toggle_resource_save db u rid now).1 = .ok (true, 1) := by
        rw [htog]
      have hdb3 : (toggle_resource_save db u rid now).2 =
          set_analytics
            { db with
                analytics := db.analytics ++ [⟨rid, 0, 0, 0, none⟩],
                saved := db.saved ++ [⟨u.id, rid, now⟩] } rid
            ⟨rid, 0, 1, 0, none⟩ := by rw [htog]
      have ha2 : analytics_lookup
          { db with
              analytics := db.analytics ++ [⟨rid, 0, 0, 0, none⟩],
              saved := db.saved ++ [⟨u.id, rid, now⟩] } rid =
          some ⟨rid, 0, 0, 0, none⟩ := by
        unfold analytics_lookup at ha ⊢
        simp [List.find?_append, ha]
      have han3 : analytics_lookup (toggle_resource_save db u rid now).2 rid =
          some ⟨rid, 0, 1, 0, none⟩ := by
        rw [hdb3, analytics_lookup_set _ rid ⟨rid, 0, 1, 0, none⟩ rfl, ha2]
        rfl
      have hsav3 : (toggle_resource_save db u rid now).2.saved =
          db.saved ++ [⟨u.id, rid, now⟩] := by
        rw [hdb3]
        rfl
      have hres3 : (toggle_resource_save db u rid now).2.resources = db.resources := by
        rw [hdb3]
        rfl
      have hsc3 : save_count (toggle_resource_save db u rid now).2 rid = 1 := by
        simp [save_count, han3]
      have hrows3 : saved_rows (toggle_resource_save db u rid now).2 rid =
          saved_rows db rid + 1 := by
        unfold saved_rows
        rw [hsav3, List.countP_append]
        simp
      refine ⟨?_, ?_, ?_, ?_, ?_, ?_, ?_⟩
      · rw [hsv]
        unfold is_saved
        rw [hsav3, List.find?_append, he]
        simp [hprow]
      · rw [hsc3, hsv]
        simp [save_count, ha]
      · rw [hsc3]
        omega
      · unfold save_consistent
        rw [han3, hrows3, hrows0]
        rfl
      · unfold user_rows
        rw [hsav3, List.countP_append]
        have h5 : List.countP (saved_pred u.id rid) [⟨u.id, rid, now⟩] = 1 := by
          simp [hprow]
        rw [h5]
        unfold user_rows at hu0
        omega
      · unfold find_resource
        rw [hres3]
        exact hres
      · rw [hsc3, hsv, hout]
        rfl
  | some srow =>
    have hsv : is_saved db u.id rid = true := by simp [is_saved, he]
    have hany : db.saved.any (saved_pred u.id rid) = true :=
      List.any_eq_true.mpr ⟨srow, List.mem_of_find?_eq_some he, List.find?_some he⟩
    have hurpos : 0 < user_rows db u.id rid := by
      rw [← is_saved_iff_user_rows]
      exact hsv
    have hur1 : user_rows db u.id rid = 1 := by omega
    have hur_le : user_rows db u.id rid ≤ saved_rows db rid :=
      List.countP_mono_left himp
    have hrows1 : 1 ≤ saved_rows db rid := by
      unfold user_rows at hur1 hur_le
      unfold saved_rows at hur_le ⊢
      omega
    cases ha : analytics_lookup db rid with
    | none =>
      exfalso
      have hrows0 : saved_rows db rid = 0 := by
        unfold save_consistent at hcons
        rw [ha] at hcons
        exact hcons
      omega
    | some a0 =>
      have har : a0.resource_id = rid := by
        have h3 := List.find?_some
          (show db.analytics.find? (fun x => decide (x.resource_id = rid)) = some a0 from ha)
        simpa using h3
      have hconsv : a0.save_count = (saved_rows db rid : Int) := by
        unfold save_consistent at hcons
        rw [ha] at hcons
        exact hcons
      have hge1 : 1 ≤ a0.save_count := by
        rw [hconsv]
        exact_mod_cast hrows1
      have hmax : max 0 (a0.save_count - 1) = a0.save_count - 1 :=
        max_eq_right (by omega)
      have htog : toggle_resource_save db u rid now =
          (.ok (false, a0.save_count - 1),
            set_analytics { db with saved := db.saved.eraseP (saved_pred u.id rid) } rid
              { a0 with save_count := a0.save_count - 1 }) := by
        have h6 : toggle_resource_save db u rid now =
            (.ok (false, max 0 (a0.save_count - 1)),
              set_analytics { db with saved := db.saved.eraseP (saved_pred u.id rid) } rid
                { a0 with save_count := max 0 (a0.save_count - 1) }) := by
          simp [toggle_resource_save, hr, he, get_or_create_analytics, ha]
        rw [h6, hmax]
      have hout : (toggle_resource_save db u rid now).1 =
          .ok (false, a0.save_count - 1) := by rw [htog]
      have hdb3 : (toggle_resource_save db u rid now).2 =
          set_analytics { db with saved := db.saved.eraseP (saved_pred u.id rid) } rid
            { a0 with save_count := a0.save_count - 1 } := by rw [htog]
      have ha2 : analytics_lookup
          { db with saved := db.saved.eraseP (saved_pred u.id rid) } rid = some a0 := ha
      have han3 : analytics_lookup (toggle_resource_save db u rid now).2 rid =
          some { a0 with save_count := a0.save_count - 1 } := by
        rw [hdb3, analytics_lookup_set _ rid
          { a0 with save_count := a0.save_count - 1 } har, ha2]
        rfl
      have hsav3 : (toggle_resource_save db u rid now).2.saved =
          db.saved.eraseP (saved_pred u.id rid) := by
        rw [hdb3]
        rfl
      have hres3 : (toggle_resource_save db u rid now).2.resources = db.resources := by
        rw [hdb3]
        rfl
      have hsc3 : save_count (toggle_resource_save db u rid now).2 rid =
          a0.save_count - 1 := by
        simp [save_count, han3]
      have hrows3 : saved_rows (toggle_resource_save db u rid now).2 rid + 1 =
          saved_rows db rid := by
        unfold saved_rows
        rw [hsav3]
        exact countP_eraseP_le _ _ _
          (fun a ha2 => by
            simp only [saved_pred, Bool.and_eq_true] at ha2
            exact ha2.2) hany
      have hu3 : user_rows (toggle_resource_save db u rid now).2 u.id rid = 0 := by
        unfold user_rows
        rw [hsav3]
        have h7 := countP_eraseP_le (saved_pred u.id rid) (saved_pred u.id rid)
          db.saved (fun _ hx => hx) hany
        unfold user_rows at hur1
        omega
      refine ⟨?_, ?_, ?_, ?_, ?_, ?_, ?_⟩
      · rw [hsv]
        have h8 : ¬ (0 < user_rows (toggle_resource_save db u rid now).2 u.id rid) := by
          omega
        cases h9 : is_saved (toggle_resource_save db u rid now).2 u.id rid
        · rfl
        · exact absurd ((is_saved_iff_user_rows _ _ _).mp h9) h8
      · have hsc0 : save_count db rid = a0.save_count := by simp [save_count, ha]
        rw [hsc3, hsv, hsc0, if_pos rfl]
        omega
      · rw [hsc3, hconsv]
        have h8 : (1 : Int) ≤ (saved_rows db rid : Int) := by exact_mod_cast hrows1
        omega
      · unfold save_consistent
        rw [han3]
        have hcast : ((saved_rows (toggle_resource_save db u rid now).2 rid : Int)) =
            (saved_rows db rid : Int) - 1 := by
          have h9 := hrows3
          omega
        rw [hcast, hconsv]
      · omega
      · unfold find_resource
        rw [hres3]
        exact hres
      · rw [hsc3, hsv, hout]
        rfl

/-- Claim C4: for an authenticated user and an existing resource (in a
consistent state: the analytics `save_count` counts the saved rows and the
user has at most one row), `toggle_resource_save` flips the user's saved
state and adjusts `save_count` by one without making it negative, and two
consecutive calls restore both the saved state and the save count. -/
theorem toggle_save_roundtrip (db : DB) (u : User) (rid : ResourceId)
    (now1 now2 : Nat) (hres : (find_resource db rid).isSome = true)
    (hcons : save_consistent db rid) (hnodup : user_rows db u.id rid ≤ 1) :
    is_saved (toggle_resource_save db u rid now1).2 u.id rid =
      !is_saved db u.id rid ∧
    save_count (toggle_resource_save db u rid now1).2 rid =
      save_count db rid + (if is_saved db u.id rid then -1 else 1) ∧
    0 ≤ save_count (toggle_resource_save db u rid now1).2 rid ∧
    is_saved
        (toggle_resource_save (toggle_resource_save db u rid now1).2 u rid now2).2
        u.id rid =
      is_saved db u.id rid ∧
    save_count
        (toggle_resource_save (toggle_resource_save db u rid now1).2 u rid now2).2
        rid =
      save_count db rid := by
  obtain ⟨h1, h2, h3, h4, h5, h6, _⟩ := toggle_step db u rid now1 hres hcons hnodup
  obtain ⟨g1, g2, _, _, _, _, _⟩ := toggle_step _ u rid now2 h6 h4 h5
  refine ⟨h1, h2, h3, ?_, ?_⟩
  · rw [g1, h1, Bool.not_not]
  · rw [g2, h1, h2]
    cases hb : is_saved db u.id rid <;> simp

/-- Witness for C4: on the sample database (resource 10 exists, nobody has
saved it, no analytics row), a save followed by an unsave restores the
unsaved state and the zero save count. -/
theorem toggle_save_roundtrip_witness :
    is_saved (toggle_resource_save sampleDB staffUser 10 3).2 staffUser.id 10 = true ∧
    save_count (toggle_resource_save sampleDB staffUser 10 3).2 10 = 1 ∧
    is_saved
        (toggle_resource_save (toggle_resource_save sampleDB staffUser 10 3).2
          staffUser 10 4).2 staffUser.id 10 = false ∧
    save_count
        (toggle_resource_save (toggle_resource_save sampleDB staffUser 10 3).2
          staffUser 10 4).2 10 = 0 := by
  have h := toggle_save_roundtrip sampleDB staffUser 10 3 4 (by decide) rfl
    (by decide)
  refine ⟨?_, ?_, ?_, ?_⟩
  · rw [h.1]
    decide
  · rw [h.2.1]
    decide
  · rw [h.2.2.2.1]
    decide
  · rw [h.2.2.2.2]
    decide

end AIExchange
